import Mathlib

/-!
Verification of the NetBox change-logging / webhook pipeline and the CSV
bulk-import parsing and validation logic, embedded shallowly from
`netbox/utilities/forms/utils.py` and `netbox/extras/signals.py`.
-/

namespace NetBox

/-! ## CSV parsing (`parse_csv` in `utilities/forms/utils.py`) -/

/-- The errors raised by `parse_csv` / `validate_csv` as
`django.forms.ValidationError` with distinct messages.  Each constructor
carries the data interpolated into the corresponding message string. -/
inductive CsvError where
  /-- `"Row {i}: Expected {expected} columns but found {found}"` -/
  | rowArity (rowIndex expected found : Nat)
  /-- `'Unexpected column header "{field}" found.'` -/
  | unknownColumn (field : String)
  /-- `'Column "{field}" is not a related object; cannot use dots'` -/
  | notRelated (field : String)
  /-- `'Invalid related object attribute for column "{field}": {to_field}'` -/
  | invalidRelatedAttr (field toField : String)
  /-- `'Required column header "{f}" not found.'` -/
  | missingRequired (field : String)
  deriving DecidableEq, Repr

/-- How `parse_csv` can terminate abnormally: either a raised
`ValidationError` (a user-facing CSV validation error), or the uncaught
`StopIteration` escaping from the unguarded `next(reader)` call. -/
inductive ParseExc where
  | validation (e : CsvError)
  | stopIteration
  deriving DecidableEq, Repr

/-- Whether an abnormal termination of `parse_csv` is one of the defined
user-facing CSV validation errors (a `ValidationError`). -/
def ParseExc.isCsvValidationError : ParseExc → Bool
  | .validation _ => true
  | .stopIteration => false

/-- `header.split('.', 1)` when `'.' in header`: the part before the first
dot and the part after it; `none` when the header contains no dot. -/
def splitOnFirstDot : List Char → Option (List Char × List Char)
  | [] => none
  | c :: cs =>
    if c = '.' then some ([], cs)
    else
      match splitOnFirstDot cs with
      | none => none
      | some (a, b) => some (c :: a, b)

/-- Interpret one CSV header cell: `field.to_field` yields
`(field, some to_field)`, a plain header yields `(header, none)`. -/
def splitHeader (header : String) : String × Option String :=
  match splitOnFirstDot header.data with
  | none => (header, none)
  | some (a, b) => (String.mk a, some (String.mk b))

/-- Python-`dict` assignment `d[k] = v` on an association list: update the
value in place if the key is present (keeping its original position, as
Python dicts preserve first-insertion order), else append at the end. -/
def dictInsert (k : String) (v : Option String) :
    List (String × Option String) → List (String × Option String)
  | [] => [(k, v)]
  | (k', v') :: rest =>
    if k' = k then (k', v) :: rest else (k', v') :: dictInsert k v rest

/-- The `headers` dictionary built by the first loop of `parse_csv` from the
header row. -/
def parseHeaders (headerRow : List String) : List (String × Option String) :=
  headerRow.foldl (fun acc h => dictInsert (splitHeader h).1 (splitHeader h).2 acc) []

/-- The keys of the `headers` dictionary. -/
def headerKeys (headers : List (String × Option String)) : List String :=
  headers.map Prod.fst

/-- The second loop of `parse_csv`: check each data row's arity against the
header count (raising at the first offending row, with its 1-based index
among the data rows), strip every cell and zip against the header keys. -/
def parseRows (headers : List (String × Option String)) (i : Nat) :
    List (List String) → Except ParseExc (List (List (String × String)))
  | [] => .ok []
  | row :: rest =>
    if row.length ≠ headers.length then
      .error (.validation (.rowArity i headers.length row.length))
    else
      match parseRows headers (i + 1) rest with
      | .error e => .error e
      | .ok recs => .ok (List.zip (headerKeys headers) (row.map String.trim) :: recs)

/-- `parse_csv(reader)`: consume the first row as headers (the unguarded
`next(reader)` raises `StopIteration` when there is no row at all), then
parse the remaining rows into records. -/
def parse_csv (rows : List (List String)) :
    Except ParseExc (List (String × Option String) × List (List (String × String))) :=
  match rows with
  | [] => .error .stopIteration
  | headerRow :: dataRows =>
    let headers := parseHeaders headerRow
    match parseRows headers 1 dataRows with
    | .error e => .error e
    | .ok recs => .ok (headers, recs)

/-! ## CSV validation (`validate_csv` in `utilities/forms/utils.py`) -/

/-- A declared form field descriptor, as consumed by `validate_csv`:
`required` is the field's required flag, `hasToFieldName` is
`hasattr(field, 'to_field_name')` (whether the field is relation-typed),
and `relatedAttrs` lists the attribute names exposed by
`field.queryset.model`, so that `hasattr(model, a)` is `a ∈ relatedAttrs`. -/
structure FieldDescr where
  required : Bool
  hasToFieldName : Bool
  relatedAttrs : List String
  deriving DecidableEq, Repr

/-- Look a field name up among the declared form fields
(`field in fields` / `fields[field]`). -/
def lookupField (fields : List (String × FieldDescr)) (name : String) :
    Option FieldDescr :=
  match fields.find? (fun p => p.1 = name) with
  | none => none
  | some p => some p.2

/-- Python truthiness of the `to_field` value stored in the headers dict:
`None` and the empty string are falsy. -/
def truthy : Option String → Bool
  | none => false
  | some s => s ≠ ""

/-- The first loop of `validate_csv`: for each provided column header in
order, raise `unknownColumn` if the field is not declared, `notRelated` if
a dotted lookup is used on a field without `to_field_name`, and
`invalidRelatedAttr` if the related model lacks the looked-up attribute. -/
def validateHeaders (fields : List (String × FieldDescr)) :
    List (String × Option String) → Except CsvError Unit
  | [] => .ok ()
  | (field, toField) :: rest =>
    match lookupField fields field with
    | none => .error (.unknownColumn field)
    | some fd =>
      if truthy toField && !fd.hasToFieldName then
        .error (.notRelated field)
      else if truthy toField && !(fd.relatedAttrs.contains (toField.getD "")) then
        .error (.invalidRelatedAttr field (toField.getD ""))
      else
        validateHeaders fields rest

/-- The second loop of `validate_csv`: raise `missingRequired` at the first
required field name absent from the headers dict keys. -/
def validateRequired (headers : List (String × Option String)) :
    List String → Except CsvError Unit
  | [] => .ok ()
  | f :: rest =>
    if (headerKeys headers).contains f then validateRequired headers rest
    else .error (.missingRequired f)

/-- `validate_csv(headers, fields, required_fields)`. -/
def validate_csv (headers : List (String × Option String))
    (fields : List (String × FieldDescr)) (requiredFields : List String) :
    Except CsvError Unit :=
  match validateHeaders fields headers with
  | .error e => .error e
  | .ok () => validateRequired headers requiredFields

/-- The required field names absent from the headers dict keys. -/
def missingRequiredFields (headers : List (String × Option String))
    (requiredFields : List String) : List String :=
  requiredFields.filter (fun f => !(headerKeys headers).contains f)

/-- The field names a given CSV validation error reports to the user. -/
def errorNamedFields : CsvError → List String
  | .rowArity _ _ _ => []
  | .unknownColumn f => [f]
  | .notRelated f => [f]
  | .invalidRelatedAttr f _ => [f]
  | .missingRequired f => [f]

/-- Whether a CSV validation error is one of the two relation-lookup
failures the spec groups as `InvalidRelationError`. -/
def isInvalidRelation : CsvError → Bool
  | .notRelated _ => true
  | .invalidRelatedAttr _ _ => true
  | _ => false

/-! ## Change logging and webhooks (`extras/signals.py`) -/

/-- The `ObjectChangeActionChoices` actions used by the signal handlers. -/
inductive Action where
  | create
  | update
  | delete
  deriving DecidableEq, Repr

/-- A tracked model instance as seen by the signal handlers.
`hasToObjectchange` is `hasattr(instance, 'to_objectchange')`;
`contentType` is `ContentType.objects.get_for_model(instance)` and `pk` is
`instance.pk`; `modelName` is `instance._meta.model_name`.  The snapshot
fields give the values produced for this instance by the snapshot helpers
(`to_objectchange(...).prechange_data` / `.postchange_data`, and
`serialize_for_webhook(instance)`), which read the instance's current
state. -/
structure Entity where
  contentType : Nat
  pk : Nat
  modelName : String
  hasToObjectchange : Bool
  prechangeData : Nat
  postchangeData : Nat
  webhookData : Nat
  deriving DecidableEq, Repr

/-- A persisted `ObjectChange` row. -/
structure ChangeRecord where
  changedObjectType : Nat
  changedObjectId : Nat
  requestId : Nat
  userId : Nat
  action : Action
  prechangeData : Nat
  postchangeData : Nat
  deriving DecidableEq, Repr

/-- Modelled from the spec: `instance.to_objectchange(action)` (defined on
the models, outside the excerpt) builds a ChangeRecord from the entity's
current before/after snapshots with the given action; the handler fills in
`user` and `request_id` afterwards. -/
def to_objectchange (e : Entity) (a : Action) : ChangeRecord :=
  { changedObjectType := e.contentType
    changedObjectId := e.pk
    requestId := 0
    userId := 0
    action := a
    prechangeData := e.prechangeData
    postchangeData := e.postchangeData }

/-- A queued webhook dictionary, as produced by `enqueue_object` in the
webhooks module: `data` is the full serialized snapshot
(`serialize_for_webhook`), `prechange`/`postchange` the snapshot pair
(`get_snapshots`). -/
structure WebhookTask where
  contentType : Nat
  objectId : Nat
  requestId : Nat
  userId : Nat
  action : Action
  data : Nat
  prechange : Nat
  postchange : Nat
  deriving DecidableEq, Repr

/-- Modelled from the spec: `enqueue_object(queue, instance, user,
request_id, action)` (webhooks module, outside the excerpt) appends a
WebhookTask built from a full serialized snapshot of the entity plus the
before/after snapshot pair. -/
def enqueue_object (queue : List WebhookTask) (inst : Entity)
    (userId requestId : Nat) (action : Action) : List WebhookTask :=
  queue ++ [{ contentType := inst.contentType
              objectId := inst.pk
              requestId := requestId
              userId := userId
              action := action
              data := inst.webhookData
              prechange := inst.prechangeData
              postchange := inst.postchangeData }]

/-- The Prometheus counter store for one metric family: model name → count.
`incCounter` is `counter.labels(model_name).inc()`. -/
def incCounter (counters : List (String × Nat)) (k : String) : List (String × Nat) :=
  match counters with
  | [] => [(k, 1)]
  | (k', n) :: rest =>
    if k' = k then (k', n + 1) :: rest else (k', n) :: incCounter rest k

/-- The three metric counter families touched by the handlers
(`model_inserts`, `model_updates`, `model_deletes`). -/
structure Counters where
  inserts : List (String × Nat)
  updates : List (String × Nat)
  deletes : List (String × Nat)
  deriving DecidableEq, Repr

/-- The state acted on by the signal handlers: the persisted `ObjectChange`
rows, the request-scoped webhook queue, and the metric counters. -/
structure SysState where
  changeRecords : List ChangeRecord
  webhookQueue : List WebhookTask
  counters : Counters
  deriving DecidableEq, Repr

/-- The keyword arguments a signal delivers to `_handle_changed_object`:
`created` is `kwargs.get('created')` (`none` when the key is absent, i.e.
for `m2m_changed` signals), `action` is `kwargs.get('action')`, and
`pkSet` is `kwargs['pk_set']` (empty for a missing or falsy value). -/
structure Kwargs where
  created : Option Bool
  action : Option String
  pkSet : List Nat
  deriving DecidableEq, Repr

/-- The action-determination chain at the top of `_handle_changed_object`:
returns the `ObjectChange` action together with the `m2m_changed` flag, or
`none` when the handler returns early. -/
def determineAction (kw : Kwargs) : Option (Action × Bool) :=
  if kw.created = some true then some (.create, false)
  else if kw.created ≠ none then some (.update, false)
  else if (kw.action = some "post_add" || kw.action = some "post_remove")
      && !kw.pkSet.isEmpty then some (.update, true)
  else none

/-- The nested `is_same_object(instance, webhook_data)` predicate. -/
def is_same_object (requestId : Nat) (inst : Entity) (t : WebhookTask) : Bool :=
  inst.contentType = t.contentType
    && inst.pk = t.objectId
    && requestId = t.requestId

/-- The bulk `ObjectChange.objects.filter(changed_object_type=...,
changed_object_id=..., request_id=...).update(postchange_data=...)` of the
M2M branch: set the postchange data of every row matching the entity and
request id, leaving the rest untouched, inserting nothing. -/
def m2mUpdateRecords (db : List ChangeRecord) (ct pk rid newPost : Nat) :
    List ChangeRecord :=
  db.map (fun r =>
    if r.changedObjectType = ct && r.changedObjectId = pk && r.requestId = rid then
      { r with postchangeData := newPost }
    else r)

/-- In-place replacement of the last queued task's `data` and
`snapshots['postchange']` (`webhook_queue[-1]['data'] = ...`). -/
def updateLastTask (inst : Entity) : List WebhookTask → List WebhookTask
  | [] => []
  | [t] => [{ t with data := inst.webhookData, postchange := inst.postchangeData }]
  | t :: ts => t :: updateLastTask inst ts

/-- The metric-counter increment at the end of `_handle_changed_object`:
`model_inserts` for create, `model_updates` for update, nothing otherwise. -/
def bumpChangedCounters (c : Counters) (action : Action) (modelName : String) : Counters :=
  match action with
  | .create => { c with inserts := incCounter c.inserts modelName }
  | .update => { c with updates := incCounter c.updates modelName }
  | .delete => c

/-- `_handle_changed_object(request, webhook_queue, sender, instance,
**kwargs)`: fires when an object is created or updated. -/
def _handle_changed_object (requestId userId : Nat) (st : SysState)
    (inst : Entity) (kw : Kwargs) : SysState :=
  if !inst.hasToObjectchange then st
  else
    match determineAction kw with
    | none => st
    | some (action, m2mChanged) =>
      let records :=
        if m2mChanged then
          m2mUpdateRecords st.changeRecords inst.contentType inst.pk
            requestId (to_objectchange inst action).postchangeData
        else
          st.changeRecords ++
            [{ to_objectchange inst action with userId := userId, requestId := requestId }]
      let queue :=
        match st.webhookQueue.getLast? with
        | some t =>
          if m2mChanged && is_same_object requestId inst t then
            updateLastTask inst st.webhookQueue
          else
            enqueue_object st.webhookQueue inst userId requestId action
        | none => enqueue_object st.webhookQueue inst userId requestId action
      { changeRecords := records
        webhookQueue := queue
        counters := bumpChangedCounters st.counters action inst.modelName }

/-- `_handle_deleted_object(request, webhook_queue, sender, instance,
**kwargs)`: fires when an object is deleted. -/
def _handle_deleted_object (requestId userId : Nat) (st : SysState)
    (inst : Entity) : SysState :=
  if !inst.hasToObjectchange then st
  else
    { changeRecords := st.changeRecords ++
        [{ to_objectchange inst .delete with userId := userId, requestId := requestId }]
      webhookQueue := enqueue_object st.webhookQueue inst userId requestId .delete
      counters := { st.counters with
        deletes := incCounter st.counters.deletes inst.modelName } }

/-- `_clear_webhook_queue`: `webhook_queue.clear()`. -/
def _clear_webhook_queue (st : SysState) : SysState :=
  { st with webhookQueue := [] }

/-- The number of queued tasks referring to a given
(entity_type, entity_id, request_id) triple. -/
def countEntityTasks (queue : List WebhookTask) (ct pk rid : Nat) : Nat :=
  (queue.filter (fun t => t.contentType = ct && t.objectId = pk && t.requestId = rid)).length

/-- Whether `validate_csv` fails with one of the two relation-lookup errors. -/
def resultInvalidRelation (r : Except CsvError Unit) : Bool :=
  match r with
  | .error e => isInvalidRelation e
  | .ok _ => false

/-- The check `validate_csv` applies to a single provided header against a
declared field: a (truthy) dotted lookup on a field without
`to_field_name`, or naming an attribute the related model lacks. -/
def badRelationHeader (fields : List (String × FieldDescr))
    (p : String × Option String) : Bool :=
  match lookupField fields p.1 with
  | none => false
  | some fd =>
    truthy p.2 && (!fd.hasToFieldName || !(fd.relatedAttrs.contains (p.2.getD "")))

/-! ## Theorems -/

/-- C9: an input with no rows at all makes the unguarded `next(reader)` in
`parse_csv` raise `StopIteration`, which is not one of the defined
user-facing CSV validation errors. -/
theorem parse_csv_empty_input_raises_stop_iteration :
    parse_csv [] = Except.error ParseExc.stopIteration ∧
    ParseExc.stopIteration.isCsvValidationError = false :=
  ⟨rfl, rfl⟩

/-- C7: an entity without `to_objectchange` is silently skipped by both the
changed-object and the deleted-object handler: the state (change records,
webhook queue, metric counters) is completely unchanged. -/
theorem handlers_skip_entity_without_capability (rid uid : Nat) (st : SysState)
    (e : Entity) (kw : Kwargs) (h : e.hasToObjectchange = false) :
    _handle_changed_object rid uid st e kw = st ∧
    _handle_deleted_object rid uid st e = st := by
  constructor
  · simp [_handle_changed_object, h]
  · simp [_handle_deleted_object, h]

theorem handlers_skip_entity_without_capability_witness :
    (Entity.hasToObjectchange ⟨1, 1, "device", false, 5, 99, 42⟩ = false) ∧
    (_handle_changed_object 7 3 ⟨[], [], ⟨[], [], []⟩⟩
        ⟨1, 1, "device", false, 5, 99, 42⟩ ⟨none, some "post_add", [4]⟩ =
      ⟨[], [], ⟨[], [], []⟩⟩ ∧
    _handle_deleted_object 7 3 ⟨[], [], ⟨[], [], []⟩⟩
        ⟨1, 1, "device", false, 5, 99, 42⟩ = ⟨[], [], ⟨[], [], []⟩⟩) :=
  ⟨rfl, handlers_skip_entity_without_capability 7 3 ⟨[], [], ⟨[], [], []⟩⟩
    ⟨1, 1, "device", false, 5, 99, 42⟩ ⟨none, some "post_add", [4]⟩ rfl⟩

/-- C10: an M2M change event whose action is neither `post_add` nor
`post_remove`, or whose affected-key set is empty, makes the
changed-object handler return early with no effect at all. -/
theorem changed_handler_ignores_other_m2m_events (rid uid : Nat)
    (st : SysState) (e : Entity) (kw : Kwargs) (h1 : kw.created = none)
    (h2 : (kw.action ≠ some "post_add" ∧ kw.action ≠ some "post_remove") ∨
      kw.pkSet = []) :
    _handle_changed_object rid uid st e kw = st := by
  have hact : determineAction kw = none := by
    rcases h2 with ⟨ha1, ha2⟩ | hpk
    · simp [determineAction, h1, ha1, ha2]
    · simp [determineAction, h1, hpk]
  simp [_handle_changed_object, hact]

theorem changed_handler_ignores_other_m2m_events_witness :
    (Kwargs.created ⟨none, some "post_clear", [4]⟩ = none) ∧
    _handle_changed_object 7 3 ⟨[], [], ⟨[], [], []⟩⟩
        ⟨1, 1, "device", true, 5, 99, 42⟩ ⟨none, some "post_clear", [4]⟩ =
      ⟨[], [], ⟨[], [], []⟩⟩ :=
  ⟨rfl, changed_handler_ignores_other_m2m_events 7 3 ⟨[], [], ⟨[], [], []⟩⟩
    ⟨1, 1, "device", true, 5, 99, 42⟩ ⟨none, some "post_clear", [4]⟩ rfl
    (Or.inl (by simp))⟩

/-- C1 counterexample: with two earlier ChangeRecords for the same
(entity, request_id) pair (postchange data 10 and 20, the record with 20
being the most recent), an M2M-triggered update with new postchange data
99 rewrites the postchange data of BOTH rows — the earlier record is not
left unchanged, contradicting the claim that only the most recent record
is updated. -/
theorem m2m_update_rewrites_earlier_record :
    ((_handle_changed_object 7 3
        ⟨[⟨1, 1, 7, 3, .update, 5, 10⟩, ⟨1, 1, 7, 3, .update, 5, 20⟩], [],
          ⟨[], [], []⟩⟩
        ⟨1, 1, "device", true, 5, 99, 42⟩
        ⟨none, some "post_add", [4]⟩).changeRecords.map
      (fun r => r.postchangeData)) = [99, 99] ∧ (10 : Nat) ≠ 99 :=
  ⟨rfl, by decide⟩

/-- C1 amended: an M2M-triggered update sets the postchange snapshot of
EVERY ChangeRecord for that (entity, request_id) pair — not only the most
recent one — and inserts no new ChangeRecord row; records for a different
entity or request id are left unchanged. -/
theorem m2m_update_rewrites_all_matching_records (rid uid : Nat)
    (st : SysState) (e : Entity) (kw : Kwargs)
    (hcap : e.hasToObjectchange = true) (h1 : kw.created = none)
    (h2 : kw.action = some "post_add" ∨ kw.action = some "post_remove")
    (h3 : kw.pkSet ≠ []) :
    (_handle_changed_object rid uid st e kw).changeRecords =
      st.changeRecords.map (fun r =>
        if r.changedObjectType = e.contentType && r.changedObjectId = e.pk
            && r.requestId = rid then
          { r with postchangeData := e.postchangeData }
        else r) ∧
    (_handle_changed_object rid uid st e kw).changeRecords.length =
      st.changeRecords.length := by
  have hact : determineAction kw = some (.update, true) := by
    rcases h2 with ha | ha <;>
      simp [determineAction, h1, ha, List.isEmpty_iff, h3]
  constructor
  · simp [_handle_changed_object, hcap, hact, m2mUpdateRecords, to_objectchange]
  · simp [_handle_changed_object, hcap, hact, m2mUpdateRecords, to_objectchange]

theorem m2m_update_rewrites_all_matching_records_witness :
    (Entity.hasToObjectchange ⟨1, 1, "device", true, 5, 99, 42⟩ = true) ∧
    ((_handle_changed_object 7 3
        ⟨[⟨1, 1, 7, 3, .update, 5, 10⟩, ⟨2, 9, 7, 3, .update, 0, 1⟩], [],
          ⟨[], [], []⟩⟩
        ⟨1, 1, "device", true, 5, 99, 42⟩
        ⟨none, some "post_add", [4]⟩).changeRecords =
      ([⟨1, 1, 7, 3, .update, 5, 10⟩, ⟨2, 9, 7, 3, .update, 0, 1⟩] :
          List ChangeRecord).map (fun r =>
        if r.changedObjectType = 1 && r.changedObjectId = 1
            && r.requestId = 7 then
          { r with postchangeData := 99 }
        else r) ∧
    (_handle_changed_object 7 3
        ⟨[⟨1, 1, 7, 3, .update, 5, 10⟩, ⟨2, 9, 7, 3, .update, 0, 1⟩], [],
          ⟨[], [], []⟩⟩
        ⟨1, 1, "device", true, 5, 99, 42⟩
        ⟨none, some "post_add", [4]⟩).changeRecords.length = 2) :=
  ⟨rfl, m2m_update_rewrites_all_matching_records 7 3
    ⟨[⟨1, 1, 7, 3, .update, 5, 10⟩, ⟨2, 9, 7, 3, .update, 0, 1⟩], [],
      ⟨[], [], []⟩⟩
    ⟨1, 1, "device", true, 5, 99, 42⟩ ⟨none, some "post_add", [4]⟩
    rfl rfl (Or.inl rfl) (by decide)⟩

theorem parseRows_all_ok (headers : List (String × Option String))
    (rows : List (List String)) (i : Nat)
    (h : ∀ row ∈ rows, row.length = headers.length) :
    parseRows headers i rows =
      .ok (rows.map fun row => List.zip (headerKeys headers) (row.map String.trim)) := by
  induction rows generalizing i with
  | nil => rfl
  | cons row rest ih =>
    have h1 : row.length = headers.length := h row (by simp)
    have h2 : ∀ r ∈ rest, r.length = headers.length :=
      fun r hr => h r (List.mem_cons_of_mem _ hr)
    simp [parseRows, h1, ih (i + 1) h2]

/-- C3: when the header row is non-empty and every data row has exactly as
many cells as the headers dictionary has keys, `parse_csv` succeeds,
returning one record per data row (so `len(rows) - 1` records), each
record zipping the header field names, in order, with the
whitespace-stripped cells of its row. -/
theorem parse_csv_ok_on_wellformed_input (headerRow : List String)
    (dataRows : List (List String)) (_hne : headerRow ≠ [])
    (harity : ∀ row ∈ dataRows, row.length = (parseHeaders headerRow).length) :
    parse_csv (headerRow :: dataRows) =
      .ok (parseHeaders headerRow,
        dataRows.map fun row =>
          List.zip (headerKeys (parseHeaders headerRow)) (row.map String.trim)) ∧
    (dataRows.map fun row =>
        List.zip (headerKeys (parseHeaders headerRow)) (row.map String.trim)).length =
      dataRows.length := by
  constructor
  · simp [parse_csv, parseRows_all_ok (parseHeaders headerRow) dataRows 1 harity]
  · simp

theorem parse_csv_ok_on_wellformed_input_witness :
    (["name", "site.slug"] ≠ ([] : List String)) ∧
    (parse_csv [["name", "site.slug"], [" a ", "b "], ["c", "d"]] =
      .ok (parseHeaders ["name", "site.slug"],
        ([[" a ", "b "], ["c", "d"]] : List (List String)).map fun row =>
          List.zip (headerKeys (parseHeaders ["name", "site.slug"]))
            (row.map String.trim)) ∧
    (([[" a ", "b "], ["c", "d"]] : List (List String)).map fun row =>
        List.zip (headerKeys (parseHeaders ["name", "site.slug"]))
          (row.map String.trim)).length = 2) :=
  ⟨by decide, parse_csv_ok_on_wellformed_input ["name", "site.slug"]
    [[" a ", "b "], ["c", "d"]] (by decide) (by decide)⟩

theorem parseRows_first_bad_row (headers : List (String × Option String))
    (pre : List (List String)) (bad : List String) (rest : List (List String))
    (i : Nat) (hpre : ∀ r ∈ pre, r.length = headers.length)
    (hbad : bad.length ≠ headers.length) :
    parseRows headers i (pre ++ bad :: rest) =
      .error (.validation (.rowArity (i + pre.length) headers.length bad.length)) := by
  induction pre generalizing i with
  | nil => simp [parseRows, hbad]
  | cons row pre ih =>
    have h1 : row.length = headers.length := hpre row (by simp)
    have h2 : ∀ r ∈ pre, r.length = headers.length :=
      fun r hr => hpre r (List.mem_cons_of_mem _ hr)
    simp only [List.cons_append, parseRows, h1, ne_eq, not_true_eq_false,
      if_false, List.append_eq, List.length_cons]
    rw [ih (i + 1) h2]
    have harith : i + 1 + pre.length = i + (pre.length + 1) := by omega
    rw [harith]

/-- C5: when some data row's cell count differs from the header count,
`parse_csv` fails with the row-arity `ValidationError`, reporting the
header count as expected, the offending row's cell count as found, and
the 1-based index of the first offending row among the data rows. -/
theorem parse_csv_row_arity_error (headerRow : List String)
    (pre : List (List String)) (bad : List String) (rest : List (List String))
    (hpre : ∀ r ∈ pre, r.length = (parseHeaders headerRow).length)
    (hbad : bad.length ≠ (parseHeaders headerRow).length) :
    parse_csv (headerRow :: (pre ++ bad :: rest)) =
      .error (.validation (.rowArity (pre.length + 1)
        (parseHeaders headerRow).length bad.length)) := by
  simp [parse_csv, parseRows_first_bad_row (parseHeaders headerRow) pre bad rest 1
    hpre hbad, Nat.add_comm 1 pre.length]

theorem parse_csv_row_arity_error_witness :
    (∀ r ∈ [["a", "b"]], List.length r = (parseHeaders ["name", "site.slug"]).length) ∧
    (["x"].length ≠ (parseHeaders ["name", "site.slug"]).length) ∧
    parse_csv [["name", "site.slug"], ["a", "b"], ["x"], ["c", "d"]] =
      .error (.validation (.rowArity 2 (parseHeaders ["name", "site.slug"]).length
        (["x"] : List String).length)) :=
  ⟨by decide, by decide,
    parse_csv_row_arity_error ["name", "site.slug"] [["a", "b"]] ["x"]
      [["c", "d"]] (by decide) (by decide)⟩

/-- C2 counterexample: with required fields `["a", "b"]` and an empty
header set, both required fields are missing, yet `validate_csv` raises a
missing-required-column error naming only `"a"` — the error does not list
every absent required field together. -/
theorem validate_csv_reports_only_first_missing_required :
    validate_csv [] [] ["a", "b"] = .error (.missingRequired "a") ∧
    missingRequiredFields [] ["a", "b"] = ["a", "b"] ∧
    errorNamedFields (CsvError.missingRequired "a") ≠ ["a", "b"] :=
  ⟨rfl, rfl, by decide⟩

theorem validateRequired_cons (headers : List (String × Option String))
    (f : String) (rest : List String) :
    validateRequired headers (f :: rest) =
      if (headerKeys headers).contains f then validateRequired headers rest
      else .error (.missingRequired f) := rfl

theorem validateRequired_finds_first_missing
    (headers : List (String × Option String)) (required : List String)
    (f : String)
    (h : required.find? (fun g => !(headerKeys headers).contains g) = some f) :
    validateRequired headers required = .error (.missingRequired f) := by
  induction required with
  | nil => simp at h
  | cons g rest ih =>
    cases hgb : (headerKeys headers).contains g with
    | false =>
      have hpg : (!(headerKeys headers).contains g) = true := by
        rw [hgb]; rfl
      rw [@List.find?_cons_of_pos _ (fun x => !(headerKeys headers).contains x)
        g rest hpg] at h
      cases h
      rw [validateRequired_cons, hgb, if_neg Bool.false_ne_true]
    | true =>
      have hpg : ¬(!(headerKeys headers).contains g) = true := by
        rw [hgb]; simp
      rw [@List.find?_cons_of_neg _ (fun x => !(headerKeys headers).contains x)
        g rest hpg] at h
      rw [validateRequired_cons, hgb, if_pos rfl]
      exact ih h

/-- C2 amended: when the provided headers pass the header checks and at
least one required field is absent from the header set, `validate_csv`
fails with a missing-required-column error naming exactly the FIRST
absent required field (in required-field order); later absent required
fields are not included in the error. -/
theorem validate_csv_missing_required_names_first
    (headers : List (String × Option String))
    (fields : List (String × FieldDescr)) (required : List String)
    (f : String) (hok : validateHeaders fields headers = .ok ())
    (h : required.find? (fun g => !(headerKeys headers).contains g) = some f) :
    validate_csv headers fields required = .error (.missingRequired f) ∧
    errorNamedFields (CsvError.missingRequired f) = [f] := by
  constructor
  · simp [validate_csv, hok, validateRequired_finds_first_missing headers required f h]
  · rfl

theorem validate_csv_missing_required_names_first_witness :
    (validateHeaders [("name", ⟨true, false, []⟩)] [("name", none)] = .ok ()) ∧
    (List.find? (fun g => !(headerKeys [("name", none)]).contains g)
      ["name", "a", "b"] = some "a") ∧
    (validate_csv [("name", none)] [("name", ⟨true, false, []⟩)]
        ["name", "a", "b"] = .error (.missingRequired "a") ∧
    errorNamedFields (CsvError.missingRequired "a") = ["a"]) :=
  ⟨rfl, by decide,
    validate_csv_missing_required_names_first [("name", none)]
      [("name", ⟨true, false, []⟩)] ["name", "a", "b"] "a" rfl (by decide)⟩

theorem validateRequired_never_invalidRelation
    (headers : List (String × Option String)) (required : List String)
    (e : CsvError) (h : validateRequired headers required = .error e) :
    isInvalidRelation e = false := by
  induction required with
  | nil => simp [validateRequired] at h
  | cons g rest ih =>
    rw [validateRequired_cons] at h
    cases hgb : (headerKeys headers).contains g with
    | false =>
      rw [hgb, if_neg Bool.false_ne_true] at h
      cases h
      rfl
    | true =>
      rw [hgb, if_pos rfl] at h
      exact ih h

theorem validateHeaders_cons (fields : List (String × FieldDescr))
    (field : String) (toField : Option String)
    (rest : List (String × Option String)) :
    validateHeaders fields ((field, toField) :: rest) =
      match lookupField fields field with
      | none => .error (.unknownColumn field)
      | some fd =>
        if truthy toField && !fd.hasToFieldName then
          .error (.notRelated field)
        else if truthy toField && !(fd.relatedAttrs.contains (toField.getD "")) then
          .error (.invalidRelatedAttr field (toField.getD ""))
        else validateHeaders fields rest := rfl

theorem bool_and_or_left (a b c d : Bool) (h : (a && b) = true) :
    (a && (b || c) || d) = true := by
  cases a <;> cases b <;> cases c <;> cases d <;> simp_all

theorem bool_and_or_right (a b c d : Bool) (h : (a && c) = true) :
    (a && (b || c) || d) = true := by
  cases a <;> cases b <;> cases c <;> cases d <;> simp_all

theorem bool_and_or_none (a b c : Bool) (h1 : ¬(a && b) = true)
    (h2 : ¬(a && c) = true) : (a && (b || c)) = false := by
  cases a <;> cases b <;> cases c <;> simp_all

theorem validateHeaders_invalidRelation_iff
    (fields : List (String × FieldDescr))
    (headers : List (String × Option String))
    (hdecl : ∀ p ∈ headers, (lookupField fields p.1).isSome = true) :
    (∃ e, validateHeaders fields headers = .error e ∧ isInvalidRelation e = true) ↔
      headers.any (badRelationHeader fields) = true := by
  induction headers with
  | nil =>
    constructor
    · rintro ⟨e, he, _⟩
      simp [validateHeaders] at he
    · intro h
      simp at h
  | cons p rest ih =>
    obtain ⟨field, toField⟩ := p
    obtain ⟨fd, hfd⟩ := Option.isSome_iff_exists.mp
      (hdecl (field, toField) (by simp))
    have hfd2 : lookupField fields field = some fd := hfd
    have hrest : ∀ q ∈ rest, (lookupField fields q.1).isSome = true :=
      fun q hq => hdecl q (List.mem_cons_of_mem _ hq)
    have hbadeq : badRelationHeader fields (field, toField) =
        (truthy toField &&
          (!fd.hasToFieldName || !(fd.relatedAttrs.contains (toField.getD "")))) := by
      simp [badRelationHeader, hfd2]
    have hstep : validateHeaders fields ((field, toField) :: rest) =
        (if truthy toField && !fd.hasToFieldName then
          .error (.notRelated field)
        else if truthy toField && !(fd.relatedAttrs.contains (toField.getD "")) then
          .error (.invalidRelatedAttr field (toField.getD ""))
        else validateHeaders fields rest) := by
      rw [validateHeaders_cons, hfd2]
    rw [List.any_cons, hbadeq]
    simp only [hstep]
    by_cases hc1 : (truthy toField && !fd.hasToFieldName) = true
    · simp only [if_pos hc1]
      exact iff_of_true ⟨.notRelated field, rfl, rfl⟩
        (bool_and_or_left _ _ _ _ hc1)
    · by_cases hc2 :
        (truthy toField && !(fd.relatedAttrs.contains (toField.getD ""))) = true
      · simp only [if_neg hc1, if_pos hc2]
        exact iff_of_true ⟨.invalidRelatedAttr field (toField.getD ""), rfl, rfl⟩
          (bool_and_or_right _ _ _ _ hc2)
      · simp only [if_neg hc1, if_neg hc2]
        rw [bool_and_or_none _ _ _ hc1 hc2, Bool.false_or]
        exact ih hrest

/-- C6: assuming every provided header names a declared field, validation
fails with one of the two relation-lookup errors (the spec's
`InvalidRelationError`) exactly when some header carries a dotted lookup
attribute on a field that lacks `to_field_name` or whose related model
does not expose the looked-up attribute. -/
theorem validate_csv_invalid_relation_iff
    (headers : List (String × Option String))
    (fields : List (String × FieldDescr)) (required : List String)
    (hdecl : ∀ p ∈ headers, (lookupField fields p.1).isSome = true) :
    resultInvalidRelation (validate_csv headers fields required) =
      headers.any (badRelationHeader fields) := by
  rcases hv : validateHeaders fields headers with e | u
  · have hlhs : resultInvalidRelation (validate_csv headers fields required) =
        isInvalidRelation e := by
      simp [validate_csv, hv, resultInvalidRelation]
    rw [hlhs]
    cases hi : isInvalidRelation e with
    | false =>
      symm
      rw [Bool.eq_false_iff]
      intro hany
      obtain ⟨e2, he2, hi2⟩ :=
        (validateHeaders_invalidRelation_iff fields headers hdecl).mpr hany
      rw [hv] at he2
      cases he2
      rw [hi] at hi2
      exact Bool.false_ne_true hi2
    | true =>
      symm
      exact (validateHeaders_invalidRelation_iff fields headers hdecl).mp
        ⟨e, hv, hi⟩
  · cases u
    have hrhs : headers.any (badRelationHeader fields) = false := by
      rw [Bool.eq_false_iff]
      intro hany
      obtain ⟨e2, he2, _⟩ :=
        (validateHeaders_invalidRelation_iff fields headers hdecl).mpr hany
      rw [hv] at he2
      cases he2
    rw [hrhs]
    rcases hr : validateRequired headers required with e | u
    · have hnr := validateRequired_never_invalidRelation headers required e hr
      simp [validate_csv, hv, hr, resultInvalidRelation, hnr]
    · cases u
      simp [validate_csv, hv, hr, resultInvalidRelation]

theorem validate_csv_invalid_relation_iff_witness :
    (resultInvalidRelation (validate_csv
        [("name", none), ("site", some "bogus")]
        [("name", ⟨true, false, []⟩), ("site", ⟨false, true, ["slug"]⟩)]
        ["name"]) = true) ∧
    (resultInvalidRelation (validate_csv
        [("name", none), ("site", some "slug")]
        [("name", ⟨true, false, []⟩), ("site", ⟨false, true, ["slug"]⟩)]
        ["name"]) = false) ∧
    validate_csv [("name", none), ("site", some "slug")]
      [("name", ⟨true, false, []⟩), ("site", ⟨false, true, ["slug"]⟩)]
      ["name"] = .ok () :=
  ⟨(validate_csv_invalid_relation_iff
      [("name", none), ("site", some "bogus")]
      [("name", ⟨true, false, []⟩), ("site", ⟨false, true, ["slug"]⟩)]
      ["name"] (by decide)).trans (by decide),
   (validate_csv_invalid_relation_iff
      [("name", none), ("site", some "slug")]
      [("name", ⟨true, false, []⟩), ("site", ⟨false, true, ["slug"]⟩)]
      ["name"] (by decide)).trans (by decide),
   rfl⟩

theorem updateLastTask_length (e : Entity) (q : List WebhookTask) :
    (updateLastTask e q).length = q.length := by
  induction q with
  | nil => rfl
  | cons t ts ih =>
    cases ts with
    | nil => rfl
    | cons t2 ts2 =>
      rw [show updateLastTask e (t :: t2 :: ts2) =
        t :: updateLastTask e (t2 :: ts2) from rfl]
      rw [List.length_cons, List.length_cons, ih]

theorem updateLastTask_getLast (e : Entity) (q : List WebhookTask)
    (t : WebhookTask) (h : q.getLast? = some t) :
    (updateLastTask e q).getLast? =
      some { t with data := e.webhookData, postchange := e.postchangeData } := by
  induction q with
  | nil => simp at h
  | cons a ts ih =>
    cases ts with
    | nil =>
      rw [List.getLast?_singleton] at h
      cases h
      rfl
    | cons b ts2 =>
      rw [List.getLast?_cons_cons] at h
      rw [show updateLastTask e (a :: b :: ts2) =
        a :: updateLastTask e (b :: ts2) from rfl]
      cases hu : updateLastTask e (b :: ts2) with
      | nil =>
        have hlen := updateLastTask_length e (b :: ts2)
        rw [hu] at hlen
        simp at hlen
      | cons c cs =>
        rw [List.getLast?_cons_cons, ← hu]
        exact ih h

theorem countEntityTasks_cons (t : WebhookTask) (l : List WebhookTask)
    (ct pk rid : Nat) :
    countEntityTasks (t :: l) ct pk rid =
      (if (t.contentType = ct && t.objectId = pk && t.requestId = rid) = true
        then 1 else 0) + countEntityTasks l ct pk rid := by
  rw [countEntityTasks, countEntityTasks, List.filter_cons]
  by_cases hp : (t.contentType = ct && t.objectId = pk && t.requestId = rid) = true
  · rw [if_pos hp, if_pos hp, List.length_cons]
    omega
  · rw [if_neg hp, if_neg hp]
    omega

theorem updateLastTask_countEntity (e : Entity) (q : List WebhookTask)
    (ct pk rid : Nat) :
    countEntityTasks (updateLastTask e q) ct pk rid =
      countEntityTasks q ct pk rid := by
  induction q with
  | nil => rfl
  | cons a ts ih =>
    cases ts with
    | nil =>
      rw [show updateLastTask e [a] =
        [{ a with data := e.webhookData, postchange := e.postchangeData }] from rfl]
      rw [countEntityTasks_cons, countEntityTasks_cons]
    | cons b ts2 =>
      rw [show updateLastTask e (a :: b :: ts2) =
        a :: updateLastTask e (b :: ts2) from rfl]
      rw [countEntityTasks_cons, countEntityTasks_cons, ih]

theorem handler_m2m_coalesces (rid uid : Nat) (st : SysState) (e : Entity)
    (kw : Kwargs) (hcap : e.hasToObjectchange = true)
    (hkw : determineAction kw = some (.update, true))
    (t : WebhookTask) (hlast : st.webhookQueue.getLast? = some t)
    (hmatch : is_same_object rid e t = true) :
    (_handle_changed_object rid uid st e kw).webhookQueue =
      updateLastTask e st.webhookQueue := by
  simp [_handle_changed_object, hcap, hkw, hlast, hmatch]

/-- C4 counterexample: a queue holding TWO tasks for the same
(entity_type, entity_id, request_id) whose last task refers to that
entity and request satisfies the claim's stated precondition, yet after
two M2M-triggered updates in sequence the code rewrites only
`webhook_queue[-1]`, so two tasks for that entity remain — not exactly
one as the claim asserts. -/
theorem m2m_double_update_leaves_two_tasks :
    countEntityTasks
      [⟨1, 1, 7, 3, .create, 30, 0, 5⟩, ⟨1, 1, 7, 3, .update, 40, 5, 10⟩]
      1 1 7 = 2 ∧
    ([⟨1, 1, 7, 3, .create, 30, 0, 5⟩, ⟨1, 1, 7, 3, .update, 40, 5, 10⟩] :
        List WebhookTask).getLast? = some ⟨1, 1, 7, 3, .update, 40, 5, 10⟩ ∧
    is_same_object 7 ⟨1, 1, "device", true, 5, 99, 42⟩
      ⟨1, 1, 7, 3, .update, 40, 5, 10⟩ = true ∧
    countEntityTasks (_handle_changed_object 7 3
        (_handle_changed_object 7 3
          ⟨[], [⟨1, 1, 7, 3, .create, 30, 0, 5⟩, ⟨1, 1, 7, 3, .update, 40, 5, 10⟩],
            ⟨[], [], []⟩⟩
          ⟨1, 1, "device", true, 5, 99, 42⟩ ⟨none, some "post_add", [4]⟩)
        ⟨1, 1, "device", true, 6, 77, 43⟩
        ⟨none, some "post_remove", [9]⟩).webhookQueue 1 1 7 = 2 ∧
    (2 : Nat) ≠ 1 :=
  ⟨rfl, rfl, rfl, rfl, by decide⟩

/-- C4 amended: starting from a queue whose most recently enqueued task
refers to the same (entity_type, entity_id, request_id), two
M2M-triggered updates for that entity in sequence replace that last task
in place: the queue length and the number of WebhookTasks for that entity
are unchanged (no task is appended, so exactly one task for the entity
remains precisely when the queue held exactly one), and the last task's
data snapshot and postchange snapshot equal those of the second update. -/
theorem m2m_double_update_coalesces (rid uid : Nat) (st : SysState)
    (e1 e2 : Entity) (kw1 kw2 : Kwargs)
    (hcap1 : e1.hasToObjectchange = true) (hcap2 : e2.hasToObjectchange = true)
    (hct : e2.contentType = e1.contentType) (hpk : e2.pk = e1.pk)
    (hkw1 : determineAction kw1 = some (.update, true))
    (hkw2 : determineAction kw2 = some (.update, true))
    (t : WebhookTask) (hlast : st.webhookQueue.getLast? = some t)
    (hmatch : is_same_object rid e1 t = true) :
    (_handle_changed_object rid uid
        (_handle_changed_object rid uid st e1 kw1) e2 kw2).webhookQueue.length =
      st.webhookQueue.length ∧
    countEntityTasks (_handle_changed_object rid uid
        (_handle_changed_object rid uid st e1 kw1) e2 kw2).webhookQueue
      e1.contentType e1.pk rid =
      countEntityTasks st.webhookQueue e1.contentType e1.pk rid ∧
    (_handle_changed_object rid uid
        (_handle_changed_object rid uid st e1 kw1) e2 kw2).webhookQueue.getLast? =
      some { t with data := e2.webhookData, postchange := e2.postchangeData } := by
  have hq1 : (_handle_changed_object rid uid st e1 kw1).webhookQueue =
      updateLastTask e1 st.webhookQueue :=
    handler_m2m_coalesces rid uid st e1 kw1 hcap1 hkw1 t hlast hmatch
  have hlast1 : (_handle_changed_object rid uid st e1 kw1).webhookQueue.getLast? =
      some { t with data := e1.webhookData, postchange := e1.postchangeData } := by
    rw [hq1]
    exact updateLastTask_getLast e1 st.webhookQueue t hlast
  have hmatch1 : is_same_object rid e2
      { t with data := e1.webhookData, postchange := e1.postchangeData } = true := by
    simp only [is_same_object, Bool.and_eq_true, decide_eq_true_eq] at hmatch ⊢
    exact ⟨⟨hct.trans hmatch.1.1, hpk.trans hmatch.1.2⟩, hmatch.2⟩
  have hq2 : (_handle_changed_object rid uid
      (_handle_changed_object rid uid st e1 kw1) e2 kw2).webhookQueue =
      updateLastTask e2 (_handle_changed_object rid uid st e1 kw1).webhookQueue :=
    handler_m2m_coalesces rid uid (_handle_changed_object rid uid st e1 kw1)
      e2 kw2 hcap2 hkw2 _ hlast1 hmatch1
  refine ⟨?_, ?_, ?_⟩
  · rw [hq2, updateLastTask_length, hq1, updateLastTask_length]
  · rw [hq2, updateLastTask_countEntity, hq1, updateLastTask_countEntity]
  · rw [hq2, updateLastTask_getLast e2 _
      { t with data := e1.webhookData, postchange := e1.postchangeData } hlast1]

theorem m2m_double_update_coalesces_witness :
    ((Entity.hasToObjectchange ⟨1, 1, "device", true, 5, 99, 42⟩ = true) ∧
      countEntityTasks [⟨1, 1, 7, 3, .update, 40, 5, 10⟩] 1 1 7 = 1) ∧
    ((_handle_changed_object 7 3
        (_handle_changed_object 7 3
          ⟨[], [⟨1, 1, 7, 3, .update, 40, 5, 10⟩], ⟨[], [], []⟩⟩
          ⟨1, 1, "device", true, 5, 99, 42⟩ ⟨none, some "post_add", [4]⟩)
        ⟨1, 1, "device", true, 6, 77, 43⟩
        ⟨none, some "post_remove", [9]⟩).webhookQueue.length =
      ([⟨1, 1, 7, 3, .update, 40, 5, 10⟩] : List WebhookTask).length ∧
    countEntityTasks (_handle_changed_object 7 3
        (_handle_changed_object 7 3
          ⟨[], [⟨1, 1, 7, 3, .update, 40, 5, 10⟩], ⟨[], [], []⟩⟩
          ⟨1, 1, "device", true, 5, 99, 42⟩ ⟨none, some "post_add", [4]⟩)
        ⟨1, 1, "device", true, 6, 77, 43⟩
        ⟨none, some "post_remove", [9]⟩).webhookQueue 1 1 7 =
      countEntityTasks [⟨1, 1, 7, 3, .update, 40, 5, 10⟩] 1 1 7 ∧
    (_handle_changed_object 7 3
        (_handle_changed_object 7 3
          ⟨[], [⟨1, 1, 7, 3, .update, 40, 5, 10⟩], ⟨[], [], []⟩⟩
          ⟨1, 1, "device", true, 5, 99, 42⟩ ⟨none, some "post_add", [4]⟩)
        ⟨1, 1, "device", true, 6, 77, 43⟩
        ⟨none, some "post_remove", [9]⟩).webhookQueue.getLast? =
      some { (⟨1, 1, 7, 3, .update, 40, 5, 10⟩ : WebhookTask) with
        data := 43, postchange := 77 }) :=
  ⟨⟨rfl, rfl⟩,
    m2m_double_update_coalesces 7 3
      ⟨[], [⟨1, 1, 7, 3, .update, 40, 5, 10⟩], ⟨[], [], []⟩⟩
      ⟨1, 1, "device", true, 5, 99, 42⟩ ⟨1, 1, "device", true, 6, 77, 43⟩
      ⟨none, some "post_add", [4]⟩ ⟨none, some "post_remove", [9]⟩
      rfl rfl rfl rfl rfl rfl
      ⟨1, 1, 7, 3, .update, 40, 5, 10⟩ rfl (by decide)⟩

end NetBox
